import Mathlib

/-!
Shallow embedding of the `weed` package of whats-this/cdn-origin: the
SeaweedFS volume cache (`VolumeCache`), the volume resolver
(`Seaweed.lookupVolume`) and the content fetcher (`Seaweed.Get`), in both
weed-client variants present in the repository.  Network effects are
modelled by passing the outcome of the single master lookup and of the
single replica fetch a call can perform as explicit oracle values, and the
embedding additionally records how many master calls were made and which
fetch URL was requested, so that claims about "no network call" are
statable.
-/

namespace CdnOrigin

/-- Go `strconv.ParseUint(s, 10, 32)`, as used by `lookupVolume`:
`some n` when `s` is a non-empty string of decimal digits whose value fits
in 32 bits, `none` otherwise.  `ParseUint` permits no sign character, so
`"-1"` fails like `"abc"` does. -/
def parseUint32 (s : String) : Option Nat :=
  let cs := s.data
  if cs = [] then none
  else if cs.all (fun c => c.isDigit) then
    let n := cs.foldl (fun acc c => acc * 10 + (c.toNat - 48)) 0
    if n < 4294967296 then some n else none
  else none

/-- Helper for `fidVolumePart`: characters before the first comma. -/
def takeUntilComma : List Char → List Char
  | [] => []
  | c :: cs => if c = ',' then [] else c :: takeUntilComma cs

/-- Go `strings.Split(fid, ",")[0]`: the prefix of `fid` before the first
comma (the whole string when no comma occurs). -/
def fidVolumePart (fid : String) : String :=
  String.mk (takeUntilComma fid.data)

/-- Go `strings.HasPrefix s pre`. -/
def hasPrefixStr (s pre : String) : Bool :=
  pre.data.isPrefixOf s.data

/-- Go `strings.HasSuffix s suf`. -/
def hasSuffixStr (s suf : String) : Bool :=
  suf.data.isSuffixOf s.data

/-- The `VolumeCache` struct: a volume-id-to-URL-list map plus a per-id
rotation cursor.  Both Go maps are modelled as total functions: `next` with
default value `0` (the code reads `v.next[id]` ignoring the `ok` flag, and a
missing Go map key reads as the zero value), `volumeCache` with an `Option`
so that a missing entry (the `ok` flag checked in `GetNext`) is
distinguishable. -/
structure VolumeCache where
  volumeCache : Nat → Option (List String)
  next : Nat → Nat

/-- The state `weed.New` constructs: both maps empty. -/
def VolumeCache.new : VolumeCache :=
  { volumeCache := fun _ => none, next := fun _ => 0 }

/-- Go map store `v.next[id] = n`. -/
def VolumeCache.storeNext (v : VolumeCache) (id n : Nat) : VolumeCache :=
  { v with next := fun j => if j = id then n else v.next j }

/-- `VolumeCache.Add`: store/replace the URL list for `id` and reset the
cursor to 0. -/
def VolumeCache.Add (v : VolumeCache) (id : Nat) (urls : List String) : VolumeCache :=
  { volumeCache := fun j => if j = id then some urls else v.volumeCache j,
    next := fun j => if j = id then 0 else v.next j }

/-- `VolumeCache.Get`: the full URL list for `id` (`nil`, i.e. `[]`, when
absent — Go returns the zero value of the map lookup). -/
def VolumeCache.Get (v : VolumeCache) (id : Nat) : List String :=
  (v.volumeCache id).getD []

/-- `VolumeCache.GetNext`: dispense the next URL for `id` round-robin.
Returns `none` exactly when the Go code would panic with an
index-out-of-range on `vol[n]`; otherwise `some (url, v')` with the
returned string and the updated cache.  The early `""` returns happen
before the deferred cursor store, so they leave the cache unchanged. -/
def VolumeCache.GetNext (v : VolumeCache) (id : Nat) : Option (String × VolumeCache) :=
  match v.volumeCache id with
  | none => some ("", v)
  | some vol =>
    if vol.length = 0 then some ("", v)
    else
      let n0 := v.next id
      let n := if n0 ≥ vol.length then 0 else n0
      match vol[n]? with
      | none => none
      | some s => some (s, v.storeNext id (n + 1))

/-- `GetNext` as a total function (justified by the theorem that the
`Option` is always `some`). -/
def VolumeCache.getNextTotal (v : VolumeCache) (id : Nat) : String × VolumeCache :=
  (v.GetNext id).getD ("", v)

/-- `VolumeCache.Remove`: `delete(v.volumeCache, id)`.  Note the source
deletes only from `volumeCache`; the stale cursor in `next` is kept. -/
def VolumeCache.Remove (v : VolumeCache) (id : Nat) : VolumeCache :=
  { v with volumeCache := fun j => if j = id then none else v.volumeCache j }

/-- `VolumeCache.Empty`: reassign both maps to fresh empty maps. -/
def VolumeCache.Empty (_ : VolumeCache) : VolumeCache :=
  VolumeCache.new

/-- One location of a `lookupResponse` (JSON fields `url`, `publicUrl`). -/
structure Location where
  url : String
  publicURL : String
deriving DecidableEq

/-- The decoded master lookup response. -/
structure lookupResponse where
  volumeId : String
  locations : List Location
deriving DecidableEq

/-- `lookupResponse.publicURLsToSlice`: the `publicUrl` of each location,
in order (the Go loop appends them left to right). -/
def lookupResponse.publicURLsToSlice (res : lookupResponse) : List String :=
  res.locations.map (fun loc => loc.publicURL)

/-- Outcome of the single `fasthttp.GetTimeout` master call a
`lookupVolume` invocation can make: a transport error, or a reply carrying
the HTTP status and the result of JSON-decoding the body (`none` for a
parse failure). -/
inductive MasterOutcome where
  | netErr : MasterOutcome
  | reply : Nat → Option lookupResponse → MasterOutcome

/-- Result of `Seaweed.lookupVolume`, instrumented with the number of
master lookups performed (0 or 1). -/
structure LookupResult where
  uri : String
  cache : VolumeCache
  masterCalls : Nat

/-- `Seaweed.lookupVolume` (identical in both weed-client variants):
parse the id, try the cache, otherwise consult the master and populate the
cache.  Every failure path returns the empty string. -/
def Seaweed.lookupVolume (master : MasterOutcome) (v : VolumeCache)
    (volumeID : String) : LookupResult :=
  match parseUint32 volumeID with
  | none => ⟨"", v, 0⟩
  | some vid =>
    let gn := v.getNextTotal vid
    if gn.1 ≠ "" then ⟨gn.1, gn.2, 0⟩
    else
      match master with
      | .netErr => ⟨"", gn.2, 1⟩
      | .reply statusCode parsed =>
        if statusCode ≠ 200 then ⟨"", gn.2, 1⟩
        else
          match parsed with
          | none => ⟨"", gn.2, 1⟩
          | some res =>
            if res.locations.length = 0 then ⟨"", gn.2, 1⟩
            else
              let v2 := gn.2.Add vid res.publicURLsToSlice
              let gn2 := v2.getNextTotal vid
              ⟨gn2.1, gn2.2, 1⟩

/-- URL construction in `Seaweed.Get`: prepend `http://` unless a scheme
is present, ensure a trailing `/` before the fid, append `?query` when the
query is non-empty. -/
def buildRequestURL (volumeURL fid query : String) : String :=
  let requestURL := volumeURL
  let requestURL :=
    if ¬ (hasPrefixStr requestURL "http://" || hasPrefixStr requestURL "https://")
    then "http://" ++ requestURL else requestURL
  let requestURL := if ¬ hasSuffixStr requestURL "/" then requestURL ++ "/" else requestURL
  let requestURL := requestURL ++ fid
  if query.length ≠ 0 then requestURL ++ "?" ++ query else requestURL

/-- Outcome of the single replica fetch (`fasthttp.Do`) a `Seaweed.Get`
call can make: a transport error, or a reply with status code, headers and
whether writing the body to the destination writer succeeds. -/
inductive FetchOutcome where
  | netErr : FetchOutcome
  | reply : Nat → List (String × String) → Bool → FetchOutcome

/-- Result of the primary (`part_000`) `Seaweed.Get`, instrumented with
the requested fetch URL (`none` when no replica fetch was attempted) and
the number of master calls made by the embedded resolution. -/
structure GetResult where
  statusCode : Nat
  headers : Option (List (String × String))
  isErr : Bool
  streamed : Bool
  fetchURL : Option String
  masterCalls : Nat

/-- The primary weed-client `Seaweed.Get`: resolve the volume of the fid,
build the URL, fetch, stream the body on 200/206, pass other statuses
through with their headers. -/
def Seaweed.Get (master : MasterOutcome) (fetch : FetchOutcome)
    (v : VolumeCache) (fid query : String) : GetResult × VolumeCache :=
  let lr := Seaweed.lookupVolume master v (fidVolumePart fid)
  if lr.uri = "" then
    (⟨500, none, true, false, none, lr.masterCalls⟩, lr.cache)
  else
    let url := buildRequestURL lr.uri fid query
    match fetch with
    | .netErr => (⟨0, none, true, false, some url, lr.masterCalls⟩, lr.cache)
    | .reply statusCode hdrs writeOk =>
      if statusCode = 200 ∨ statusCode = 206 then
        if writeOk then
          (⟨statusCode, some hdrs, false, true, some url, lr.masterCalls⟩, lr.cache)
        else
          (⟨500, none, true, false, some url, lr.masterCalls⟩, lr.cache)
      else
        (⟨statusCode, some hdrs, false, false, some url, lr.masterCalls⟩, lr.cache)

/-- Result of the second weed-client variant's `Get` (`part_001`), which
returns no header map. -/
structure GetResultV1 where
  statusCode : Nat
  isErr : Bool
  streamed : Bool
  fetchURL : Option String

/-- The second weed-client variant's `Seaweed.Get` (`part_001`): streams
the body only on status 200, and its final statement is
`return fasthttp.StatusOK, err`, so every completed request reports 200
to the caller regardless of the replica's status code. -/
def SeaweedV1.Get (master : MasterOutcome) (fetch : FetchOutcome)
    (v : VolumeCache) (fid query : String) : GetResultV1 × VolumeCache :=
  let lr := Seaweed.lookupVolume master v (fidVolumePart fid)
  if lr.uri = "" then
    (⟨500, true, false, none⟩, lr.cache)
  else
    let url := buildRequestURL lr.uri fid query
    match fetch with
    | .netErr => (⟨0, true, false, some url⟩, lr.cache)
    | .reply statusCode _ writeOk =>
      if statusCode = 200 then
        if writeOk then
          (⟨200, false, true, some url⟩, lr.cache)
        else
          (⟨500, true, false, some url⟩, lr.cache)
      else
        (⟨200, false, false, some url⟩, lr.cache)

/-- The results of `count` consecutive `GetNext` calls for `id`, together
with the final cache state. -/
def getNextRun (v : VolumeCache) (id : Nat) : Nat → List String × VolumeCache
  | 0 => ([], v)
  | count + 1 =>
    let p := v.getNextTotal id
    let r := getNextRun p.2 id count
    (p.1 :: r.1, r.2)

/-- Cache states reachable from the initial state by the public
operations (`Get` reads without mutating, so it is omitted). -/
inductive Reachable : VolumeCache → Prop where
  | init : Reachable VolumeCache.new
  | add {v} (id : Nat) (urls : List String) : Reachable v → Reachable (v.Add id urls)
  | getNext {v} (id : Nat) : Reachable v → Reachable (v.getNextTotal id).2
  | remove {v} (id : Nat) : Reachable v → Reachable (v.Remove id)
  | empty {v} : Reachable v → Reachable v.Empty

/-- The two lock modes of Go's `sync.RWMutex`. -/
inductive LockMode where
  | readLock : LockMode
  | writeLock : LockMode
deriving DecidableEq

/-- Whether one `sync.RWMutex` acquisition excludes another: only pairs
involving the write lock exclude; two read locks may be held
concurrently. -/
def LockMode.excludes : LockMode → LockMode → Bool
  | .writeLock, _ => true
  | _, .writeLock => true
  | .readLock, .readLock => false

/-- The lock `VolumeCache.GetNext` acquires in the source: `v.RLock()`. -/
def VolumeCache.getNextLockMode : LockMode :=
  LockMode.readLock

/-! ## Helper lemmas about `VolumeCache` -/

@[simp] theorem VolumeCache.Add_volumeCache_same (v : VolumeCache) (id : Nat)
    (urls : List String) : (v.Add id urls).volumeCache id = some urls := by
  simp [VolumeCache.Add]

@[simp] theorem VolumeCache.Add_next_same (v : VolumeCache) (id : Nat)
    (urls : List String) : (v.Add id urls).next id = 0 := by
  simp [VolumeCache.Add]

@[simp] theorem VolumeCache.storeNext_next_same (v : VolumeCache) (id n : Nat) :
    (v.storeNext id n).next id = n := by
  simp [VolumeCache.storeNext]

@[simp] theorem VolumeCache.storeNext_volumeCache (v : VolumeCache) (id n : Nat) :
    (v.storeNext id n).volumeCache = v.volumeCache := rfl

/-- The `vol[n]` access inside `GetNext` is always in bounds, for every
state, because the cursor is clamped to 0 first. -/
theorem VolumeCache.getNext_isSome (v : VolumeCache) (id : Nat) :
    (v.GetNext id).isSome = true := by
  unfold VolumeCache.GetNext
  cases h : v.volumeCache id with
  | none => simp
  | some vol =>
    by_cases hl : vol.length = 0
    · simp [hl]
    · have hlt : (if v.next id ≥ vol.length then 0 else v.next id) < vol.length := by
        split
        · exact Nat.pos_of_ne_zero hl
        · omega
      simp [hl, List.getElem?_eq_getElem hlt]

theorem VolumeCache.getNextTotal_none {v : VolumeCache} {id : Nat}
    (h : v.volumeCache id = none) : v.getNextTotal id = ("", v) := by
  simp [VolumeCache.getNextTotal, VolumeCache.GetNext, h]

theorem VolumeCache.getNextTotal_nil {v : VolumeCache} {id : Nat}
    (h : v.volumeCache id = some []) : v.getNextTotal id = ("", v) := by
  simp [VolumeCache.getNextTotal, VolumeCache.GetNext, h]

/-- `GetNext` when the cursor is in range: serve the element at the cursor
and advance it. -/
theorem VolumeCache.getNextTotal_lt {v : VolumeCache} {id : Nat} {addrs : List String}
    (h : v.volumeCache id = some addrs) (hlt : v.next id < addrs.length) :
    v.getNextTotal id = (addrs.getD (v.next id) "", v.storeNext id (v.next id + 1)) := by
  have hne : addrs.length ≠ 0 := by omega
  have hge : ¬ (v.next id ≥ addrs.length) := by omega
  simp [VolumeCache.getNextTotal, VolumeCache.GetNext, h, hne, hge,
    List.getElem?_eq_getElem hlt]

/-- `GetNext` when the cursor has run past the end: wrap to element 0 and
set the cursor to 1. -/
theorem VolumeCache.getNextTotal_ge {v : VolumeCache} {id : Nat} {addrs : List String}
    (h : v.volumeCache id = some addrs) (hne : addrs ≠ [])
    (hge : v.next id ≥ addrs.length) :
    v.getNextTotal id = (addrs.getD 0 "", v.storeNext id 1) := by
  have hl : addrs.length ≠ 0 := fun h0 => hne (List.length_eq_zero.mp h0)
  have hlt : 0 < addrs.length := Nat.pos_of_ne_zero hl
  simp [VolumeCache.getNextTotal, VolumeCache.GetNext, h, hl, hge,
    List.getElem?_eq_getElem hlt]

/-- `GetNext` never touches the `volumeCache` map, only the cursor map. -/
theorem VolumeCache.getNextTotal_volumeCache (v : VolumeCache) (id : Nat) :
    (v.getNextTotal id).2.volumeCache = v.volumeCache := by
  rcases ho : v.volumeCache id with _ | vol
  · rw [VolumeCache.getNextTotal_none ho]
  · by_cases hl : vol = []
    · rw [VolumeCache.getNextTotal_nil (hl ▸ ho)]
    · by_cases hlt : v.next id < vol.length
      · rw [VolumeCache.getNextTotal_lt ho hlt]; rfl
      · rw [VolumeCache.getNextTotal_ge ho hl (by omega)]; rfl

/-- Running `m` consecutive `GetNext` calls from cursor `k` with
`k + m = length` returns exactly the suffix of the list from index `k` and
leaves the cursor at `k + m`. -/
theorem getNextRun_drop (id : Nat) (addrs : List String) (m : Nat) :
    ∀ (v : VolumeCache) (k : Nat),
      v.volumeCache id = some addrs → v.next id = k → k + m = addrs.length →
      (getNextRun v id m).1 = addrs.drop k ∧
      (getNextRun v id m).2.volumeCache = v.volumeCache ∧
      (getNextRun v id m).2.next id = k + m := by
  induction m with
  | zero =>
    intro v k hv hk hm
    have hk2 : k = addrs.length := by omega
    subst hk2
    refine ⟨?_, rfl, by simpa using hk⟩
    show ([] : List String) = addrs.drop addrs.length
    rw [List.drop_length]
  | succ m ih =>
    intro v k hv hk hm
    have hlt : v.next id < addrs.length := by omega
    have hstep := VolumeCache.getNextTotal_lt hv hlt
    have hv' : ((v.getNextTotal id).2).volumeCache id = some addrs := by
      rw [VolumeCache.getNextTotal_volumeCache]; exact hv
    have hk' : ((v.getNextTotal id).2).next id = k + 1 := by
      rw [hstep]; simp [hk]
    obtain ⟨h1, h2, h3⟩ := ih (v.getNextTotal id).2 (k + 1) hv' hk' (by omega)
    have hdrop : addrs.drop k = addrs[k] :: addrs.drop (k + 1) :=
      List.drop_eq_getElem_cons (by omega)
    refine ⟨?_, ?_, ?_⟩
    · show (v.getNextTotal id).1 :: (getNextRun (v.getNextTotal id).2 id m).1 = addrs.drop k
      have hfst : (v.getNextTotal id).1 = addrs.getD k "" := by rw [hstep, hk]
      have hgetD : addrs.getD k "" :: addrs.drop (k + 1) = addrs.drop k := by
        rw [hdrop]
        simp [List.getD_eq_getElem?_getD,
          List.getElem?_eq_getElem (show k < addrs.length by omega)]
      rw [h1, hfst]
      exact hgetD
    · show (getNextRun (v.getNextTotal id).2 id m).2.volumeCache = v.volumeCache
      rw [h2, VolumeCache.getNextTotal_volumeCache]
    · show (getNextRun (v.getNextTotal id).2 id m).2.next id = k + (m + 1)
      rw [h3]; omega

/-- Splitting a run of `a + b` calls into a run of `a` and a run of `b`. -/
theorem getNextRun_append (id b : Nat) :
    ∀ (a : Nat) (v : VolumeCache),
      getNextRun v id (a + b) =
        ((getNextRun v id a).1 ++ (getNextRun (getNextRun v id a).2 id b).1,
         (getNextRun (getNextRun v id a).2 id b).2) := by
  intro a
  induction a with
  | zero => intro v; simp [getNextRun]
  | succ a ih =>
    intro v
    have hab : a + 1 + b = (a + b) + 1 := by omega
    rw [hab]
    simp only [getNextRun]
    rw [ih (v.getNextTotal id).2]
    simp [getNextRun]

/-! ## Helper lemmas about `Seaweed.lookupVolume` -/

/-- A cache hit: when `GetNext` dispenses a non-empty URL, `lookupVolume`
returns it without consulting the master. -/
theorem lookupVolume_hit (master : MasterOutcome) (w : VolumeCache) (s : String)
    (vid : Nat) (hp : parseUint32 s = some vid)
    (hu : (w.getNextTotal vid).1 ≠ "") :
    Seaweed.lookupVolume master w s
      = ⟨(w.getNextTotal vid).1, (w.getNextTotal vid).2, 0⟩ := by
  simp [Seaweed.lookupVolume, hp, hu]

/-- A cache miss answered by a well-formed 200 reply with a non-empty
location list: populate the cache and dispense its first address. -/
theorem lookupVolume_miss_populate (w : VolumeCache) (s : String) (vid : Nat)
    (res : lookupResponse) (hp : parseUint32 s = some vid)
    (hmiss : (w.getNextTotal vid).1 = "") (hres : res.locations ≠ []) :
    Seaweed.lookupVolume (.reply 200 (some res)) w s
      = ⟨res.publicURLsToSlice.getD 0 "",
         ((w.getNextTotal vid).2.Add vid res.publicURLsToSlice).storeNext vid 1, 1⟩ := by
  have hlen : res.publicURLsToSlice ≠ [] := by
    simp [lookupResponse.publicURLsToSlice, hres]
  have hll : res.locations.length ≠ 0 := fun h0 => hres (List.length_eq_zero.mp h0)
  have hv2 : (((w.getNextTotal vid).2.Add vid res.publicURLsToSlice)).volumeCache vid
      = some res.publicURLsToSlice := by simp
  have hn2 : (((w.getNextTotal vid).2.Add vid res.publicURLsToSlice)).next vid = 0 := by simp
  have hlt : (((w.getNextTotal vid).2.Add vid res.publicURLsToSlice)).next vid
      < res.publicURLsToSlice.length := by
    rw [hn2]
    exact Nat.pos_of_ne_zero (fun h0 => hlen (List.length_eq_zero.mp h0))
  have hgn2 := VolumeCache.getNextTotal_lt hv2 hlt
  rw [hn2] at hgn2
  simp [Seaweed.lookupVolume, hp, hmiss, hll, hgn2]

/-! ## Claim theorems -/

/-- C1: after `Add(id, addrs)` from any prior cache state, the next
`N = addrs.length` consecutive `GetNext(id)` calls return
`addrs[0], ..., addrs[N-1]` in order, and the `(N+1)`-th call wraps back
to `addrs[0]`. -/
theorem c1_add_round_robin (v : VolumeCache) (id : Nat) (addrs : List String)
    (hne : addrs ≠ []) :
    (getNextRun (v.Add id addrs) id addrs.length).1 = addrs ∧
    (getNextRun (v.Add id addrs) id (addrs.length + 1)).1
      = addrs ++ [addrs.getD 0 ""] := by
  obtain ⟨hrun, hvc, hnext⟩ :=
    getNextRun_drop id addrs addrs.length (v.Add id addrs) 0 (by simp) (by simp) (by omega)
  have hfull : (getNextRun (v.Add id addrs) id addrs.length).1 = addrs := by
    simpa using hrun
  refine ⟨hfull, ?_⟩
  rw [getNextRun_append]
  have hvc7 : (getNextRun (v.Add id addrs) id addrs.length).2.volumeCache id = some addrs :=
    (congrFun hvc id).trans (VolumeCache.Add_volumeCache_same v id addrs)
  have hs := VolumeCache.getNextTotal_ge hvc7 hne (by omega)
  show (getNextRun (v.Add id addrs) id addrs.length).1
      ++ ((getNextRun (getNextRun (v.Add id addrs) id addrs.length).2 id 1).1) = _
  rw [hfull]
  congr 1
  show ((getNextRun (v.Add id addrs) id addrs.length).2.getNextTotal id).1 :: [] = _
  rw [hs]

/-- C1 witness: a concrete three-address rotation. -/
theorem c1_witness :
    (getNextRun (VolumeCache.new.Add 7 ["a", "b", "c"]) 7 3).1 = ["a", "b", "c"] ∧
    (getNextRun (VolumeCache.new.Add 7 ["a", "b", "c"]) 7 4).1 = ["a", "b", "c", "a"] := by
  have h := c1_add_round_robin VolumeCache.new 7 ["a", "b", "c"] (by decide)
  exact ⟨h.1, h.2⟩

/-- C3: in every reachable cache state, `GetNext` on an unknown id or an
id with an empty stored list returns the empty no-address signal without
mutating the cache, every internal index access is in bounds (the result
is never the out-of-range marker `none`), and a cursor at or past the end
of a non-empty list is clamped to 0. -/
theorem c3_getNext_safe (v : VolumeCache) (id : Nat) (_hreach : Reachable v) :
    (v.GetNext id).isSome = true ∧
    ((v.volumeCache id = none ∨ v.volumeCache id = some []) →
      v.GetNext id = some ("", v)) ∧
    (∀ addrs, v.volumeCache id = some addrs → addrs ≠ [] →
      v.next id ≥ addrs.length → (v.getNextTotal id).1 = addrs.getD 0 "") := by
  refine ⟨VolumeCache.getNext_isSome v id, ?_, ?_⟩
  · rintro (h | h)
    · simp [VolumeCache.GetNext, h]
    · simp [VolumeCache.GetNext, h]
  · intro addrs hv hne hge
    rw [VolumeCache.getNextTotal_ge hv hne hge]

/-- C3 witness: a concrete reachable state with an empty stored list. -/
theorem c3_witness :
    (VolumeCache.new.Add 7 []).GetNext 7 = some ("", VolumeCache.new.Add 7 []) := by
  have h := c3_getNext_safe (VolumeCache.new.Add 7 []) 7
    (Reachable.add 7 [] Reachable.init)
  exact h.2.1 (Or.inr (by simp))

/-- C4: the data-race demonstration behind the code_bug verdict. In the
source, `GetNext` acquires only the read lock (`v.RLock()`), and two read
locks do not exclude each other, yet a `GetNext` call mutates the shared
cursor map `next` — so two concurrent `GetNext` calls on a cache populated
with a three-address list perform unsynchronized concurrent writes to the
same Go map, a data race. -/
theorem c4_getNext_read_lock_write_race :
    LockMode.excludes VolumeCache.getNextLockMode VolumeCache.getNextLockMode = false ∧
    ((VolumeCache.new.Add 7 ["a", "b", "c"]).getNextTotal 7).2.next 7 ≠
      (VolumeCache.new.Add 7 ["a", "b", "c"]).next 7 := by
  exact ⟨rfl, by decide⟩

/-- The master reply body of C2's end-to-end scenario. -/
def c2Response : lookupResponse :=
  ⟨"7", [⟨"10.0.0.1:8080", "cdn1.example.com:8080"⟩,
         ⟨"10.0.0.2:8080", "cdn2.example.com:8080"⟩]⟩

/-- C2: a cold `lookupVolume` for volume 7 against a 200 master reply with
two locations returns the `publicUrl` of the first location (not `url`),
the next resolution returns the second `publicUrl`, the third wraps back
to the first; and in general a fresh populate caches exactly the
locations' `publicUrl` fields in the master's order and performs the first
rotation step immediately (cursor 1 after the call). -/
theorem c2_lookup_populates_and_rotates (v : VolumeCache)
    (hv : v.volumeCache 7 = none) (m2 m3 : MasterOutcome)
    (r1 r2 r3 : LookupResult)
    (h1 : r1 = Seaweed.lookupVolume (.reply 200 (some c2Response)) v "7")
    (h2 : r2 = Seaweed.lookupVolume m2 r1.cache "7")
    (h3 : r3 = Seaweed.lookupVolume m3 r2.cache "7") :
    (r1.uri = "cdn1.example.com:8080" ∧ r1.masterCalls = 1 ∧
     r1.cache.volumeCache 7 = some ["cdn1.example.com:8080", "cdn2.example.com:8080"] ∧
     r2.uri = "cdn2.example.com:8080" ∧ r2.masterCalls = 0 ∧
     r3.uri = "cdn1.example.com:8080" ∧ r3.masterCalls = 0) ∧
    (∀ (w : VolumeCache) (res : lookupResponse) (s : String) (vid : Nat),
      parseUint32 s = some vid → w.volumeCache vid = none → res.locations ≠ [] →
      (Seaweed.lookupVolume (.reply 200 (some res)) w s).cache.volumeCache vid
        = some (res.locations.map (fun loc => loc.publicURL)) ∧
      (Seaweed.lookupVolume (.reply 200 (some res)) w s).cache.next vid = 1 ∧
      (Seaweed.lookupVolume (.reply 200 (some res)) w s).uri
        = (res.locations.map (fun loc => loc.publicURL)).getD 0 "" ∧
      (Seaweed.lookupVolume (.reply 200 (some res)) w s).masterCalls = 1) := by
  have general : ∀ (w : VolumeCache) (res : lookupResponse) (s : String) (vid : Nat),
      parseUint32 s = some vid → w.volumeCache vid = none → res.locations ≠ [] →
      (Seaweed.lookupVolume (.reply 200 (some res)) w s).cache.volumeCache vid
        = some (res.locations.map (fun loc => loc.publicURL)) ∧
      (Seaweed.lookupVolume (.reply 200 (some res)) w s).cache.next vid = 1 ∧
      (Seaweed.lookupVolume (.reply 200 (some res)) w s).uri
        = (res.locations.map (fun loc => loc.publicURL)).getD 0 "" ∧
      (Seaweed.lookupVolume (.reply 200 (some res)) w s).masterCalls = 1 := by
    intro w res s vid hp hw hres
    have hgn := VolumeCache.getNextTotal_none hw
    have hmiss : (w.getNextTotal vid).1 = "" := by rw [hgn]
    have hmain := lookupVolume_miss_populate w s vid res hp hmiss hres
    rw [hmain, hgn]
    refine ⟨?_, ?_, rfl, rfl⟩
    · show ((w.Add vid res.publicURLsToSlice).storeNext vid 1).volumeCache vid = _
      rw [VolumeCache.storeNext_volumeCache]
      simp [lookupResponse.publicURLsToSlice]
    · simp
  refine ⟨?_, general⟩
  obtain ⟨hvc1, hn1, hu1, hm1⟩ := general v c2Response "7" 7 (by decide) hv (by decide)
  have hurls : c2Response.locations.map (fun loc => loc.publicURL)
      = ["cdn1.example.com:8080", "cdn2.example.com:8080"] := by decide
  rw [hurls] at hvc1 hu1
  have hu1c : (Seaweed.lookupVolume (.reply 200 (some c2Response)) v "7").uri
      = "cdn1.example.com:8080" := by rw [hu1]; decide
  -- second call: cache hit on cursor 1
  have hgn2 : (Seaweed.lookupVolume (.reply 200 (some c2Response)) v "7").cache.getNextTotal 7
      = ("cdn2.example.com:8080",
         (Seaweed.lookupVolume (.reply 200 (some c2Response)) v "7").cache.storeNext 7 2) := by
    have h := VolumeCache.getNextTotal_lt hvc1 (by rw [hn1]; decide)
    rw [hn1] at h
    simpa using h
  have hne2 : ((Seaweed.lookupVolume (.reply 200 (some c2Response)) v "7").cache.getNextTotal 7).1
      ≠ "" := by
    rw [hgn2]
    show ("cdn2.example.com:8080" : String) ≠ ""
    decide
  have hr2 := lookupVolume_hit m2
    (Seaweed.lookupVolume (.reply 200 (some c2Response)) v "7").cache "7" 7 (by decide) hne2
  rw [hgn2] at hr2
  dsimp only at hr2
  -- third call: cursor 2 wraps to 0
  have hvc2 : ((Seaweed.lookupVolume (.reply 200 (some c2Response)) v "7").cache.storeNext 7 2).volumeCache 7
      = some ["cdn1.example.com:8080", "cdn2.example.com:8080"] := by
    rw [VolumeCache.storeNext_volumeCache]; exact hvc1
  have hgn3 : ((Seaweed.lookupVolume (.reply 200 (some c2Response)) v "7").cache.storeNext 7 2).getNextTotal 7
      = ("cdn1.example.com:8080",
         ((Seaweed.lookupVolume (.reply 200 (some c2Response)) v "7").cache.storeNext 7 2).storeNext 7 1) := by
    have h := VolumeCache.getNextTotal_ge hvc2 (by decide) (by simp)
    simpa using h
  have hne3 : (((Seaweed.lookupVolume (.reply 200 (some c2Response)) v "7").cache.storeNext 7 2).getNextTotal 7).1
      ≠ "" := by
    rw [hgn3]
    show ("cdn1.example.com:8080" : String) ≠ ""
    decide
  have hr3 := lookupVolume_hit m3
    ((Seaweed.lookupVolume (.reply 200 (some c2Response)) v "7").cache.storeNext 7 2) "7" 7
    (by decide) hne3
  rw [hgn3] at hr3
  dsimp only at hr3
  subst h3
  subst h2
  subst h1
  rw [hr2]
  dsimp only
  rw [hr3]
  exact ⟨hu1c, hm1, hvc1, rfl, rfl, rfl, rfl⟩

/-- C2 witness: the scenario run from the empty cache. -/
theorem c2_witness :
    (Seaweed.lookupVolume (.reply 200 (some c2Response)) VolumeCache.new "7").uri
      = "cdn1.example.com:8080" ∧
    (Seaweed.lookupVolume MasterOutcome.netErr
        (Seaweed.lookupVolume (.reply 200 (some c2Response)) VolumeCache.new "7").cache
        "7").uri
      = "cdn2.example.com:8080" ∧
    (Seaweed.lookupVolume MasterOutcome.netErr
        (Seaweed.lookupVolume MasterOutcome.netErr
          (Seaweed.lookupVolume (.reply 200 (some c2Response)) VolumeCache.new "7").cache
          "7").cache "7").uri
      = "cdn1.example.com:8080" := by
  have h := c2_lookup_populates_and_rotates VolumeCache.new rfl
    MasterOutcome.netErr MasterOutcome.netErr _ _ _ rfl rfl rfl
  exact ⟨h.1.1, h.1.2.2.2.1, h.1.2.2.2.2.2.1⟩

/-- C5: a volume identifier string that does not parse as an unsigned
32-bit decimal integer makes `lookupVolume` return the no-address result
with the cache untouched and zero master calls, and makes `Seaweed.Get`
return an internal error with no replica fetch attempted. -/
theorem c5_bad_identifier_no_network (s : String) (hbad : parseUint32 s = none) :
    (∀ master v, Seaweed.lookupVolume master v s = ⟨"", v, 0⟩) ∧
    (∀ master fetch v fid query, fidVolumePart fid = s →
      (Seaweed.Get master fetch v fid query).1.statusCode = 500 ∧
      (Seaweed.Get master fetch v fid query).1.isErr = true ∧
      (Seaweed.Get master fetch v fid query).1.fetchURL = none ∧
      (Seaweed.Get master fetch v fid query).1.masterCalls = 0 ∧
      (Seaweed.Get master fetch v fid query).2 = v) := by
  have hl : ∀ master v, Seaweed.lookupVolume master v s = ⟨"", v, 0⟩ := by
    intro master v
    simp [Seaweed.lookupVolume, hbad]
  refine ⟨hl, ?_⟩
  intro master fetch v fid query hf
  have hlv := hl master v
  simp [Seaweed.Get, hf, hlv]

/-- C5 witness: the spec's two examples, `"abc"` and `"-1"`. -/
theorem c5_witness :
    Seaweed.lookupVolume MasterOutcome.netErr VolumeCache.new "abc"
      = ⟨"", VolumeCache.new, 0⟩ ∧
    (Seaweed.Get MasterOutcome.netErr FetchOutcome.netErr VolumeCache.new
        "-1,abcdef" "").1.masterCalls = 0 ∧
    (Seaweed.Get MasterOutcome.netErr FetchOutcome.netErr VolumeCache.new
        "-1,abcdef" "").1.fetchURL = none := by
  refine ⟨(c5_bad_identifier_no_network "abc" (by decide)).1 _ _, ?_, ?_⟩
  · exact ((c5_bad_identifier_no_network "-1" (by decide)).2
      MasterOutcome.netErr FetchOutcome.netErr VolumeCache.new "-1,abcdef" ""
      (by decide)).2.2.2.1
  · exact ((c5_bad_identifier_no_network "-1" (by decide)).2
      MasterOutcome.netErr FetchOutcome.netErr VolumeCache.new "-1,abcdef" ""
      (by decide)).2.2.1

/-- C6: a 200 master reply whose parsed location list is empty makes the
resolution fail whenever the master was actually consulted, and creates no
cache entry: the id-to-address-list map is exactly what it was before the
call (in particular no empty-list entry appears). -/
theorem c6_empty_locations_create_nothing (v : VolumeCache) (s : String)
    (res : lookupResponse) (hempty : res.locations = []) :
    (Seaweed.lookupVolume (.reply 200 (some res)) v s).cache.volumeCache
      = v.volumeCache ∧
    ((Seaweed.lookupVolume (.reply 200 (some res)) v s).masterCalls = 1 →
      (Seaweed.lookupVolume (.reply 200 (some res)) v s).uri = "") := by
  unfold Seaweed.lookupVolume
  cases hp : parseUint32 s with
  | none => exact ⟨rfl, fun h => by simp at h⟩
  | some vid =>
    dsimp only
    by_cases hu : (v.getNextTotal vid).1 ≠ ""
    · rw [if_pos hu]
      exact ⟨VolumeCache.getNextTotal_volumeCache v vid, fun h => by simp at h⟩
    · rw [if_neg hu, if_neg (show ¬(200 ≠ 200) by decide),
        if_pos (show res.locations.length = 0 by rw [hempty]; rfl)]
      exact ⟨VolumeCache.getNextTotal_volumeCache v vid, fun _ => rfl⟩

/-- C6 witness: an empty-locations reply against a cache holding an entry
for a different volume. -/
theorem c6_witness :
    (Seaweed.lookupVolume (.reply 200 (some ⟨"7", []⟩))
        (VolumeCache.new.Add 3 ["x"]) "7").cache.volumeCache
      = (VolumeCache.new.Add 3 ["x"]).volumeCache ∧
    ((Seaweed.lookupVolume (.reply 200 (some ⟨"7", []⟩))
        (VolumeCache.new.Add 3 ["x"]) "7").masterCalls = 1 →
      (Seaweed.lookupVolume (.reply 200 (some ⟨"7", []⟩))
        (VolumeCache.new.Add 3 ["x"]) "7").uri = "") :=
  c6_empty_locations_create_nothing (VolumeCache.new.Add 3 ["x"]) "7" ⟨"7", []⟩ rfl

/-- The fetch URL as the spec describes it: the address prefixed with
`http://` unless a scheme is already present, exactly one `/` separator
(appended only when the address does not already end in one), the full fid
verbatim, and `?query` exactly when the query is non-empty. -/
def specFetchURL (addr fid query : String) : String :=
  let base :=
    if ¬ (hasPrefixStr addr "http://" || hasPrefixStr addr "https://")
    then "http://" ++ addr else addr
  let based := if ¬ hasSuffixStr base "/" then base ++ "/" else base
  based ++ fid ++ (if query ≠ "" then "?" ++ query else "")

/-- The URL the code builds coincides with the URL the spec describes. -/
theorem buildRequestURL_eq_spec (a f q : String) :
    buildRequestURL a f q = specFetchURL a f q := by
  unfold buildRequestURL specFetchURL
  by_cases hq : q = ""
  · subst hq
    simp
  · have hlen : q.length ≠ 0 := by
      cases q with
      | mk cs =>
        cases cs with
        | nil => exact absurd rfl hq
        | cons c cs => simp
    simp [hq, hlen, String.append_assoc]

/-- C7: whenever resolution succeeds, the outbound fetch URL recorded by
`Seaweed.Get` is exactly the URL described by the spec: scheme-normalized
address, exactly one `/` separator, the full fid passed through verbatim
(commas included), and `?query` if and only if the query is non-empty. -/
theorem c7_fetch_url_shape (master : MasterOutcome) (fetch : FetchOutcome)
    (v : VolumeCache) (fid query : String)
    (hres : (Seaweed.lookupVolume master v (fidVolumePart fid)).uri ≠ "") :
    (Seaweed.Get master fetch v fid query).1.fetchURL
      = some (specFetchURL (Seaweed.lookupVolume master v (fidVolumePart fid)).uri
          fid query) := by
  have hb := buildRequestURL_eq_spec
    (Seaweed.lookupVolume master v (fidVolumePart fid)).uri fid query
  unfold Seaweed.Get
  rw [if_neg hres]
  cases fetch with
  | netErr =>
    dsimp only
    rw [hb]
  | reply code hdrs writeOk =>
    dsimp only
    rw [hb]
    split
    · split
      · rfl
      · rfl
    · rfl

/-- C7 witness: the spec's end-to-end example URL. -/
theorem c7_witness :
    (Seaweed.Get MasterOutcome.netErr FetchOutcome.netErr
        (VolumeCache.new.Add 7 ["cdn1.example.com:8080"]) "7,abcdef123" "").1.fetchURL
      = some "http://cdn1.example.com:8080/7,abcdef123" := by
  have h := c7_fetch_url_shape MasterOutcome.netErr FetchOutcome.netErr
    (VolumeCache.new.Add 7 ["cdn1.example.com:8080"]) "7,abcdef123" "" (by decide)
  rw [h]
  decide

/-- C8 counterexample: a network failure, a 200 reply whose body fails to
parse, and a non-200 reply all produce the very same `lookupVolume`
result, so a caller cannot distinguish them as different typed failures:
the claim is false of the code (the distinction exists only in log
output). -/
theorem c8_counterexample :
    Seaweed.lookupVolume MasterOutcome.netErr VolumeCache.new "7"
      = Seaweed.lookupVolume (MasterOutcome.reply 200 none) VolumeCache.new "7" ∧
    Seaweed.lookupVolume MasterOutcome.netErr VolumeCache.new "7"
      = Seaweed.lookupVolume (MasterOutcome.reply 503 (some ⟨"7", []⟩))
          VolumeCache.new "7" :=
  ⟨rfl, rfl⟩

/-- C8 amended: the code distinguishes a JSON parse failure from a network
failure or a non-200 status only in its log output; the value a caller
receives is identical in all three cases — the same no-address result from
the same cache state, after one master call. -/
theorem c8_amended_failures_indistinct (v : VolumeCache) (s : String)
    (code : Nat) (parsed : Option lookupResponse) (hcode : code ≠ 200) :
    Seaweed.lookupVolume MasterOutcome.netErr v s
      = Seaweed.lookupVolume (MasterOutcome.reply code parsed) v s ∧
    Seaweed.lookupVolume MasterOutcome.netErr v s
      = Seaweed.lookupVolume (MasterOutcome.reply 200 none) v s ∧
    ((Seaweed.lookupVolume MasterOutcome.netErr v s).masterCalls = 1 →
      (Seaweed.lookupVolume MasterOutcome.netErr v s).uri = "") := by
  unfold Seaweed.lookupVolume
  cases hp : parseUint32 s with
  | none => exact ⟨rfl, rfl, fun h => by simp at h⟩
  | some vid =>
    dsimp only
    by_cases hu : (v.getNextTotal vid).1 ≠ ""
    · simp [hu]
    · simp [hu, hcode]

/-- C8 amended witness. -/
theorem c8_witness :
    Seaweed.lookupVolume MasterOutcome.netErr VolumeCache.new "9"
      = Seaweed.lookupVolume (MasterOutcome.reply 503 none) VolumeCache.new "9" ∧
    ((Seaweed.lookupVolume MasterOutcome.netErr VolumeCache.new "9").masterCalls = 1 →
      (Seaweed.lookupVolume MasterOutcome.netErr VolumeCache.new "9").uri = "") := by
  have h := c8_amended_failures_indistinct VolumeCache.new "9" 503 none (by decide)
  exact ⟨h.1, h.2.2⟩

/-- C9 counterexample: the claim asserts that a non-200/206 replica status
is returned to the caller as-is in both weed-client variants, but the
second variant (`part_001`) answers a 404 replica response with status
200. -/
theorem c9_counterexample :
    (SeaweedV1.Get MasterOutcome.netErr (FetchOutcome.reply 404 [] true)
        (VolumeCache.new.Add 7 ["cdn1.example.com:8080"]) "7,abc" "").1.statusCode
      ≠ 404 := by
  decide

/-- C9 amended: in the primary variant (`part_000`) a 200/206 replica
response is streamed and its status and headers are returned, a write
failure while streaming yields an internal error 500, and any other
status is passed through as-is with its headers; the second variant
(`part_001`) streams only on status 200, turns a 200-with-write-failure
into 500, and reports status 200 for every other completed request
regardless of the replica's status code. -/
theorem c9_amended_status_handling (master : MasterOutcome) (v : VolumeCache)
    (fid query : String) (code : Nat) (hdrs : List (String × String)) (writeOk : Bool)
    (hres : (Seaweed.lookupVolume master v (fidVolumePart fid)).uri ≠ "") :
    ((code = 200 ∨ code = 206) → writeOk = true →
      (Seaweed.Get master (.reply code hdrs writeOk) v fid query).1.statusCode = code ∧
      (Seaweed.Get master (.reply code hdrs writeOk) v fid query).1.headers = some hdrs ∧
      (Seaweed.Get master (.reply code hdrs writeOk) v fid query).1.streamed = true ∧
      (Seaweed.Get master (.reply code hdrs writeOk) v fid query).1.isErr = false) ∧
    ((code = 200 ∨ code = 206) → writeOk = false →
      (Seaweed.Get master (.reply code hdrs writeOk) v fid query).1.statusCode = 500 ∧
      (Seaweed.Get master (.reply code hdrs writeOk) v fid query).1.isErr = true) ∧
    (¬(code = 200 ∨ code = 206) →
      (Seaweed.Get master (.reply code hdrs writeOk) v fid query).1.statusCode = code ∧
      (Seaweed.Get master (.reply code hdrs writeOk) v fid query).1.headers = some hdrs ∧
      (Seaweed.Get master (.reply code hdrs writeOk) v fid query).1.streamed = false ∧
      (Seaweed.Get master (.reply code hdrs writeOk) v fid query).1.isErr = false) ∧
    ((SeaweedV1.Get master (.reply code hdrs writeOk) v fid query).1.streamed = true
      ↔ (code = 200 ∧ writeOk = true)) ∧
    (code = 200 → writeOk = false →
      (SeaweedV1.Get master (.reply code hdrs writeOk) v fid query).1.statusCode = 500 ∧
      (SeaweedV1.Get master (.reply code hdrs writeOk) v fid query).1.isErr = true) ∧
    (¬(code = 200 ∧ writeOk = false) →
      (SeaweedV1.Get master (.reply code hdrs writeOk) v fid query).1.statusCode = 200 ∧
      (SeaweedV1.Get master (.reply code hdrs writeOk) v fid query).1.isErr = false) := by
  refine ⟨?_, ?_, ?_, ?_, ?_, ?_⟩
  · intro hc hw
    simp [Seaweed.Get, hres, hc, hw]
  · intro hc hw
    simp [Seaweed.Get, hres, hc, hw]
  · intro hc
    simp [Seaweed.Get, hres, hc]
  · by_cases hc : code = 200
    · cases writeOk with
      | true => simp [SeaweedV1.Get, hres, hc]
      | false => simp [SeaweedV1.Get, hres, hc]
    · simp [SeaweedV1.Get, hres, hc]
  · intro hc hw
    simp [SeaweedV1.Get, hres, hc, hw]
  · intro hcw
    by_cases hc : code = 200
    · have hw : writeOk = true := by
        cases writeOk with
        | true => rfl
        | false => exact absurd ⟨hc, rfl⟩ hcw
      simp [SeaweedV1.Get, hres, hc, hw]
    · simp [SeaweedV1.Get, hres, hc]

/-- C9 amended witness: a 404 replica response at both variants. -/
theorem c9_witness :
    (Seaweed.Get MasterOutcome.netErr (FetchOutcome.reply 404 [("k", "v")] true)
        (VolumeCache.new.Add 7 ["c"]) "7,a" "").1.statusCode = 404 ∧
    (SeaweedV1.Get MasterOutcome.netErr (FetchOutcome.reply 404 [("k", "v")] true)
        (VolumeCache.new.Add 7 ["c"]) "7,a" "").1.statusCode = 200 := by
  have h := c9_amended_status_handling MasterOutcome.netErr
    (VolumeCache.new.Add 7 ["c"]) "7,a" "" 404 [("k", "v")] true (by decide)
  exact ⟨(h.2.2.1 (by decide)).1, (h.2.2.2.2.2 (by decide)).1⟩

/-- C10: the no-address signal is the in-band empty string.  If the stored
list holds `""` at the (clamped) cursor position, `GetNext` returns `""`
even though an entry exists, and `lookupVolume` treats this exactly like a
missing entry: it consults the master, replaces the entry (resetting the
cursor, which ends at 1 after the fresh dispense), and returns the same
address it would return had the entry been removed beforehand. -/
theorem c10_inband_empty_signal (v : VolumeCache) (s : String) (vid : Nat)
    (addrs : List String) (res : lookupResponse)
    (hp : parseUint32 s = some vid)
    (hv : v.volumeCache vid = some addrs)
    (hne : addrs ≠ [])
    (hcur : addrs.getD (if v.next vid ≥ addrs.length then 0 else v.next vid) "" = "")
    (hres : res.locations ≠ []) :
    (v.getNextTotal vid).1 = "" ∧
    (Seaweed.lookupVolume (.reply 200 (some res)) v s).masterCalls = 1 ∧
    (Seaweed.lookupVolume (.reply 200 (some res)) v s).cache.volumeCache vid
      = some res.publicURLsToSlice ∧
    (Seaweed.lookupVolume (.reply 200 (some res)) v s).cache.next vid = 1 ∧
    (Seaweed.lookupVolume (.reply 200 (some res)) v s).uri
      = (Seaweed.lookupVolume (.reply 200 (some res)) (v.Remove vid) s).uri := by
  have hmiss : (v.getNextTotal vid).1 = "" := by
    by_cases hlt : v.next vid < addrs.length
    · rw [VolumeCache.getNextTotal_lt hv hlt]
      rw [if_neg (by omega)] at hcur
      exact hcur
    · rw [VolumeCache.getNextTotal_ge hv hne (by omega)]
      rw [if_pos (by omega)] at hcur
      exact hcur
  have hmain := lookupVolume_miss_populate v s vid res hp hmiss hres
  have hrm : ((v.Remove vid).getNextTotal vid).1 = "" := by
    rw [VolumeCache.getNextTotal_none (by simp [VolumeCache.Remove])]
  have hmain2 := lookupVolume_miss_populate (v.Remove vid) s vid res hp hrm hres
  rw [hmain, hmain2]
  refine ⟨hmiss, rfl, ?_, ?_, rfl⟩
  · show (((v.getNextTotal vid).2.Add vid res.publicURLsToSlice).storeNext vid 1).volumeCache vid
      = some res.publicURLsToSlice
    rw [VolumeCache.storeNext_volumeCache]
    simp
  · show (((v.getNextTotal vid).2.Add vid res.publicURLsToSlice).storeNext vid 1).next vid = 1
    simp

/-- C10 witness: an entry whose first address is the empty string. -/
theorem c10_witness :
    ((VolumeCache.new.Add 7 ["", "b"]).getNextTotal 7).1 = "" ∧
    (Seaweed.lookupVolume (.reply 200 (some ⟨"7", [⟨"u", "p"⟩]⟩))
        (VolumeCache.new.Add 7 ["", "b"]) "7").masterCalls = 1 ∧
    (Seaweed.lookupVolume (.reply 200 (some ⟨"7", [⟨"u", "p"⟩]⟩))
        (VolumeCache.new.Add 7 ["", "b"]) "7").cache.volumeCache 7
      = some (lookupResponse.publicURLsToSlice ⟨"7", [⟨"u", "p"⟩]⟩) ∧
    (Seaweed.lookupVolume (.reply 200 (some ⟨"7", [⟨"u", "p"⟩]⟩))
        (VolumeCache.new.Add 7 ["", "b"]) "7").cache.next 7 = 1 ∧
    (Seaweed.lookupVolume (.reply 200 (some ⟨"7", [⟨"u", "p"⟩]⟩))
        (VolumeCache.new.Add 7 ["", "b"]) "7").uri
      = (Seaweed.lookupVolume (.reply 200 (some ⟨"7", [⟨"u", "p"⟩]⟩))
          ((VolumeCache.new.Add 7 ["", "b"]).Remove 7) "7").uri :=
  c10_inband_empty_signal (VolumeCache.new.Add 7 ["", "b"]) "7" 7 ["", "b"]
    ⟨"7", [⟨"u", "p"⟩]⟩ (by decide) (by decide) (by decide) (by decide) (by decide)

end CdnOrigin
